import Mathlib

/-!
Shallow embedding of `src/frontend/src/lib/validation.ts` from the
`Vaasu02/canvas` repository.

The file `validation.ts` exports a single function

  export function validatePhysics(openSCADCode: string): ValidationResult

whose body tests the input string against two JavaScript regular
expressions and builds a fixed-shape result record.  All numeric values
occurring in the function (1.0, 2.0, 1.5, 30, 90, 45) are exactly
representable IEEE-754 doubles and every arithmetic step is an exact
comparison, so we model the numbers as rationals (`ℚ`) with no loss of
faithfulness.

Regular-expression semantics.  `re.test(s)` in JavaScript (no `g` flag)
returns true iff the pattern matches starting at some position of `s`.
Both patterns used by the source,

  /cube\(\[\d+,\s*\d+,\s*[01]\.\d+\]/
  /rotate\(\[90,\s*0,\s*0\]/

have the property that every greedy quantifier (`\d+`, `\s*`) is
immediately followed by a literal character that its character class
excludes (a comma, a dot or a bracket after `\d+`; a digit, `0` after
`\s*`).  Consequently backtracking into such a quantifier can never
produce a match that maximal munch misses: shortening the quantified run
leaves a character of the run's own class at the front of the remainder,
which the follow-up literal rejects.  The deterministic maximal-munch
matchers below are therefore extensionally equal to the JavaScript
backtracking engine on these two patterns, and `re.test` is the
disjunction of the position-wise matchers over every start position.
-/

/-- The character class `\d` of JavaScript regular expressions:
exactly the ASCII digits `0`-`9`. -/
def isJsDigit (c : Char) : Bool :=
  '0' ≤ c && c ≤ '9'

/-- The character class `\s` of JavaScript regular expressions
(ECMA-262 WhiteSpace ∪ LineTerminator): tab, LF, VT, FF, CR, space,
NBSP, U+1680, U+2000–U+200A, U+2028, U+2029, U+202F, U+205F, U+3000 and
U+FEFF. -/
def isJsSpace (c : Char) : Bool :=
  let n := c.toNat
  n = 0x09 || n = 0x0A || n = 0x0B || n = 0x0C || n = 0x0D || n = 0x20 ||
  n = 0xA0 || n = 0x1680 || (0x2000 ≤ n && n ≤ 0x200A) ||
  n = 0x2028 || n = 0x2029 || n = 0x202F || n = 0x205F ||
  n = 0x3000 || n = 0xFEFF

/-- Match a literal sequence of characters at the front of the input,
returning the rest of the input on success. -/
def matchLit : List Char → List Char → Option (List Char)
  | [], s => some s
  | _ :: _, [] => none
  | p :: ps, c :: cs => if c = p then matchLit ps cs else none

/-- Match one character satisfying `f` at the front of the input
(a regex character class such as `[01]`). -/
def matchOne (f : Char → Bool) : List Char → Option (List Char)
  | [] => none
  | c :: cs => if f c then some cs else none

/-- Greedy `\d+`: one or more ASCII digits, consuming as many as
possible. -/
def matchDigits1 : List Char → Option (List Char)
  | [] => none
  | c :: cs => if isJsDigit c then some (cs.dropWhile isJsDigit) else none

/-- Greedy `\s*`: consume as much JavaScript whitespace as possible. -/
def skipSpaces (s : List Char) : List Char :=
  s.dropWhile isJsSpace

/-- Position-wise matcher for `/cube\(\[\d+,\s*\d+,\s*[01]\.\d+\]/`:
does the pattern match starting exactly at the front of `s`? -/
def thinWallAt (s : List Char) : Bool :=
  ((matchLit "cube([".data s).bind fun s =>
   (matchDigits1 s).bind fun s =>
   (matchLit [','] s).bind fun s =>
   (matchDigits1 (skipSpaces s)).bind fun s =>
   (matchLit [','] s).bind fun s =>
   (matchOne (fun c => c = '0' || c = '1') (skipSpaces s)).bind fun s =>
   (matchLit ['.'] s).bind fun s =>
   (matchDigits1 s).bind fun s =>
   matchLit [']'] s).isSome

/-- Position-wise matcher for `/rotate\(\[90,\s*0,\s*0\]/`. -/
def rotateAt (s : List Char) : Bool :=
  ((matchLit "rotate([90,".data s).bind fun s =>
   (matchLit ['0'] (skipSpaces s)).bind fun s =>
   (matchLit [','] s).bind fun s =>
   (matchLit ['0'] (skipSpaces s)).bind fun s =>
   matchLit [']'] s).isSome

/-- `re.test(s)`: the position-wise matcher succeeds at some start
position (every suffix of the input, the empty suffix included). -/
def testAnywhere (p : List Char → Bool) : List Char → Bool
  | [] => p []
  | c :: cs => p (c :: cs) || testAnywhere p cs

/-- `const hasThinWalls = /cube\(\[\d+,\s*\d+,\s*[01]\.\d+\]/.test(openSCADCode)`
(validation.ts line 6). -/
def hasThinWalls (openSCADCode : String) : Bool :=
  testAnywhere thinWallAt openSCADCode.data

/-- `const hasComplexOverhangs = /rotate\(\[90,\s*0,\s*0\]/.test(openSCADCode)`
(validation.ts line 7). -/
def hasComplexOverhangs (openSCADCode : String) : Bool :=
  testAnywhere rotateAt openSCADCode.data

/-- The `centerOfGravity` component of `ValidationResult` as constructed
by `validatePhysics`: fields `x`, `y` and `stable`. -/
structure CenterOfGravity where
  x : ℚ
  y : ℚ
  stable : Bool
deriving DecidableEq, Repr

/-- The `wallThickness` component of `ValidationResult`: fields `min`
and `ok`. -/
structure WallThicknessResult where
  min : ℚ
  ok : Bool
deriving DecidableEq, Repr

/-- The `overhangAngle` component of `ValidationResult`: fields `max`
and `ok`. -/
structure OverhangAngleResult where
  max : ℚ
  ok : Bool
deriving DecidableEq, Repr

/-- The `ValidationResult` record as constructed by the return statement
of `validatePhysics` (validation.ts lines 12-26): exactly the three
components `centerOfGravity`, `wallThickness` and `overhangAngle`,
nothing else. -/
structure ValidationResult where
  centerOfGravity : CenterOfGravity
  wallThickness : WallThicknessResult
  overhangAngle : OverhangAngleResult
deriving DecidableEq, Repr

/-- `export function validatePhysics(openSCADCode: string): ValidationResult`
(validation.ts lines 3-27), embedded line by line:
two regex tests, the two selected numbers, and the literal result record
with `stable: true`, `ok: wallThickness >= 1.5`, `ok: maxOverhang <= 45`. -/
def validatePhysics (openSCADCode : String) : ValidationResult :=
  let thin := hasThinWalls openSCADCode
  let complexOverhangs := hasComplexOverhangs openSCADCode
  let wallThickness : ℚ := if thin then 1 else 2
  let maxOverhang : ℚ := if complexOverhangs then 90 else 30
  -- the source literal `1.5` is the exact double 1.5, i.e. the rational 3/2,
  -- written `mkRat 3 2` so that the comparison evaluates by kernel reduction
  { centerOfGravity := { x := 0, y := 0, stable := true }
    wallThickness := { min := wallThickness, ok := decide (mkRat 3 2 ≤ wallThickness) }
    overhangAngle := { max := maxOverhang, ok := decide (maxOverhang ≤ 45) } }

example : hasThinWalls "cube([10,10,0.5])" = true := by decide
example : hasThinWalls "cube([10.0,10,0.5])" = false := by decide
example : hasThinWalls "" = false := by decide
example : hasThinWalls "x cube([1, 2, 0.75]) y" = true := by decide
example : hasThinWalls "cube([10, 10, 01.5])" = false := by decide
example : hasComplexOverhangs "rotate([90, 0, 0])" = true := by decide
example : hasComplexOverhangs "rotate([90, 0, 1])" = false := by decide
example : hasComplexOverhangs "translate([0,0,1]) rotate([90,0,0]) cube();" = true := by
  decide

/-- The `wallThickness` component of the report, in closed form: `min` is
1 when the thin-wall regex matches and 2 otherwise, and `ok` is the
negation of the match (since 1 < 3/2 ≤ 2). -/
theorem validatePhysics_wallThickness (s : String) :
    (validatePhysics s).wallThickness =
      ⟨if hasThinWalls s then 1 else 2, !hasThinWalls s⟩ := by
  unfold validatePhysics
  cases h : hasThinWalls s <;> simp [h] <;> decide

/-- The `overhangAngle` component of the report, in closed form: `max`
is 90 when the rotate regex matches and 30 otherwise, and `ok` is the
negation of the match (since 30 ≤ 45 < 90). -/
theorem validatePhysics_overhangAngle (s : String) :
    (validatePhysics s).overhangAngle =
      ⟨if hasComplexOverhangs s then 90 else 30, !hasComplexOverhangs s⟩ := by
  unfold validatePhysics
  cases h : hasComplexOverhangs s <;> simp [h] <;> decide

/-- The `centerOfGravity` component is the constant `{x := 0, y := 0,
stable := true}` for every input. -/
theorem validatePhysics_centerOfGravity (s : String) :
    (validatePhysics s).centerOfGravity = ⟨0, 0, true⟩ := rfl

/-- C1: the claim says a structurally invalid input (empty geometry, NaN
coordinates) yields a distinct Input Error outcome and never a report
marking the shape stable.  The code has no input-error path at all: on
the empty input it returns a full report with `stable := true`.  This
theorem evaluates the code at that failing input. -/
theorem validatePhysics_empty_input_reports_stable :
    validatePhysics "" =
      ⟨⟨0, 0, true⟩, ⟨2, true⟩, ⟨30, true⟩⟩ ∧
    (validatePhysics "").centerOfGravity.stable = true := by
  constructor <;> decide

/-- C2: the claim says two textual descriptions of the same solid never
receive different reports.  `cube([10,10,0.5])` and `cube([10.0,10,0.5])`
describe the same cuboid (10.0 = 10), yet the thin-wall regex matches
only the first, so the reports differ. -/
theorem validatePhysics_same_solid_different_reports :
    validatePhysics "cube([10,10,0.5])" ≠ validatePhysics "cube([10.0,10,0.5])" ∧
    (validatePhysics "cube([10,10,0.5])").wallThickness.min = 1 ∧
    (validatePhysics "cube([10.0,10,0.5])").wallThickness.min = 2 := by
  refine ⟨?_, by decide, by decide⟩
  decide

/-- C3: the wall-thickness check passes iff the reported minimum is at
least the (hard-coded fallback default) threshold 1.5: for every input,
`wallThickness.ok = (wallThickness.min >= 1.5)`. -/
theorem validatePhysics_wallThickness_ok_iff (s : String) :
    (validatePhysics s).wallThickness.ok = true ↔
      (1.5 : ℚ) ≤ (validatePhysics s).wallThickness.min := by
  rw [validatePhysics_wallThickness]
  cases h : hasThinWalls s <;> simp <;> norm_num

/-- C4: the overhang check passes iff the reported worst-case angle is
at most the (hard-coded fallback default) threshold 45: for every input,
`overhangAngle.ok = (overhangAngle.max <= 45)`. -/
theorem validatePhysics_overhangAngle_ok_iff (s : String) :
    (validatePhysics s).overhangAngle.ok = true ↔
      (validatePhysics s).overhangAngle.max ≤ 45 := by
  rw [validatePhysics_overhangAngle]
  cases h : hasComplexOverhangs s <;> simp <;> norm_num

/-- C5: the claim says the report contains an overall `ok` field equal
to `diagnostics.clean && stability.ok && thickness.ok && overhang.ok`.
The record actually returned has exactly the three components
`centerOfGravity`, `wallThickness`, `overhangAngle` — no overall `ok`,
no diagnostics and no stability component — as this full evaluation at a
concrete input shows. -/
theorem validatePhysics_report_shape :
    validatePhysics "cube([20,20,20]);" =
      ⟨⟨0, 0, true⟩, ⟨2, true⟩, ⟨30, true⟩⟩ := by
  decide

/-- C6: the claim says a cube of edge `e` gets `volume = e³` and
`centroid = (0,0,e/2)` in the report.  The report has no volume or
centroid field; for the unit cube the code returns the same constant
`centerOfGravity = (0,0)` record it returns for every input, carrying no
volume and no z-coordinate. -/
theorem validatePhysics_unit_cube_report :
    validatePhysics "cube([1,1,1]);" =
      ⟨⟨0, 0, true⟩, ⟨2, true⟩, ⟨30, true⟩⟩ := by
  decide

/-- C7: validation is a pure, deterministic function of its input:
calling it twice on the same input yields identical reports.  The source
reads no external state and mutates nothing (its regexes carry no `g`
flag, so even `lastIndex` is untouched), which the embedding reflects by
being a total function. -/
theorem validatePhysics_deterministic (s t : String) (h : s = t) :
    validatePhysics s = validatePhysics t := by
  rw [h]

/-- Witness for C7 at a concrete input. -/
theorem validatePhysics_deterministic_witness :
    validatePhysics "cube([2,2,2]);" = validatePhysics "cube([2,2,2]);" :=
  validatePhysics_deterministic "cube([2,2,2]);" "cube([2,2,2]);" rfl

/-- C8: for every input string the returned `centerOfGravity` is the
constant `{x := 0, y := 0, stable := true}`; no input is ever reported
unstable or with a nonzero offset. -/
theorem validatePhysics_centerOfGravity_constant (s : String) :
    (validatePhysics s).centerOfGravity = ⟨0, 0, true⟩ ∧
    (validatePhysics s).centerOfGravity.stable = true ∧
    (validatePhysics s).centerOfGravity.x = 0 ∧
    (validatePhysics s).centerOfGravity.y = 0 :=
  ⟨rfl, rfl, rfl, rfl⟩

/-- C9: `wallThickness.min` is 1 exactly when the thin-wall regex
`cube\(\[\d+,\s*\d+,\s*[01]\.\d+\]` matches (embedded as
`hasThinWalls`) and 2 otherwise; `ok` holds exactly when the regex does
not match; `min` takes no value other than 1 and 2. -/
theorem validatePhysics_wallThickness_characterization (s : String) :
    ((validatePhysics s).wallThickness.min = if hasThinWalls s then 1 else 2) ∧
    ((validatePhysics s).wallThickness.ok = !hasThinWalls s) ∧
    ((validatePhysics s).wallThickness.min = 1 ∨
      (validatePhysics s).wallThickness.min = 2) := by
  rw [validatePhysics_wallThickness]
  cases h : hasThinWalls s <;> simp

/-- C10: `overhangAngle.max` is 90 exactly when the rotate regex
`rotate\(\[90,\s*0,\s*0\]` matches (embedded as `hasComplexOverhangs`)
and 30 otherwise; `ok` holds exactly when the regex does not match;
`max` takes no value other than 30 and 90. -/
theorem validatePhysics_overhangAngle_characterization (s : String) :
    ((validatePhysics s).overhangAngle.max = if hasComplexOverhangs s then 90 else 30) ∧
    ((validatePhysics s).overhangAngle.ok = !hasComplexOverhangs s) ∧
    ((validatePhysics s).overhangAngle.max = 30 ∨
      (validatePhysics s).overhangAngle.max = 90) := by
  rw [validatePhysics_overhangAngle]
  cases h : hasComplexOverhangs s <;> simp
